import Mathlib

/-!
Console1 control surface: the declarations of `console1.h`

A shallow embedding of the data model that `libs/surfaces/console1/console1.h`
declares: the `ControllerID` enumeration with the C++ numbering rule for its
enumerators, the `send_controllers` table, the two inline band helpers, the
bank size, and the containers behind the control registry, the blink list and
the strip inventory.
-/

namespace Console1

/-! ## `enum ControllerID` -/

/-- The enumerators of `Console1::ControllerID`, in declaration order. -/
inductive ControllerID where
  | CONTROLLER_NONE
  | VOLUME
  | PAN
  | MUTE
  | SOLO
  | ORDER
  | DRIVE
  | EXTERNAL_SIDECHAIN
  | CHARACTER
  | FOCUS1
  | FOCUS2
  | FOCUS3
  | FOCUS4
  | FOCUS5
  | FOCUS6
  | FOCUS7
  | FOCUS8
  | FOCUS9
  | FOCUS10
  | FOCUS11
  | FOCUS12
  | FOCUS13
  | FOCUS14
  | FOCUS15
  | FOCUS16
  | FOCUS17
  | FOCUS18
  | FOCUS19
  | FOCUS20
  | COMP
  | COMP_THRESH
  | COMP_RELEASE
  | COMP_RATIO
  | COMP_PAR
  | COMP_ATTACK
  | SHAPE
  | SHAPE_GATE
  | SHAPE_SUSTAIN
  | SHAPE_RELEASE
  | SHAPE_PUNCH
  | PRESET
  | HARD_GATE
  | FILTER_TO_COMPRESSORS
  | HIGH_SHAPE
  | EQ
  | HIGH_GAIN
  | HIGH_FREQ
  | HIGH_MID_GAIN
  | HIGH_MID_FREQ
  | HIGH_MID_SHAPE
  | LOW_MID_GAIN
  | LOW_MID_FREQ
  | LOW_MID_SHAPE
  | LOW_GAIN
  | LOW_FREQ
  | LOW_SHAPE
  | PAGE_UP
  | PAGE_DOWN
  | DISPLAY_ON
  | LOW_CUT
  | MODE
  | HIGH_CUT
  | GAIN
  | PHASE_INV
  | INPUT_METER_L
  | INPUT_METER_R
  | OUTPUT_METER_L
  | OUTPUT_METER_R
  | SHAPE_METER
  | COMP_METER
  | TRACK_COPY
  | TRACK_GROUP
  deriving DecidableEq, Repr

open ControllerID

/-- The enumerator list of the declaration as written: every enumerator with its
explicit initialiser, or `none` where the source gives no initialiser
(`FOCUS2` .. `FOCUS19`). -/
def ControllerID.declaration : List (ControllerID × Option Nat) :=
  [ (CONTROLLER_NONE, some 0), (VOLUME, some 7), (PAN, some 10), (MUTE, some 12),
    (SOLO, some 13), (ORDER, some 14), (DRIVE, some 15), (EXTERNAL_SIDECHAIN, some 17),
    (CHARACTER, some 18), (FOCUS1, some 21),
    (FOCUS2, none), (FOCUS3, none), (FOCUS4, none), (FOCUS5, none), (FOCUS6, none),
    (FOCUS7, none), (FOCUS8, none), (FOCUS9, none), (FOCUS10, none), (FOCUS11, none),
    (FOCUS12, none), (FOCUS13, none), (FOCUS14, none), (FOCUS15, none), (FOCUS16, none),
    (FOCUS17, none), (FOCUS18, none), (FOCUS19, none),
    (FOCUS20, some 40), (COMP, some 46), (COMP_THRESH, some 47), (COMP_RELEASE, some 48),
    ( COMP_RATIO, some 49), (COMP_PAR, some 50), (COMP_ATTACK, some 51), (SHAPE, some 53),
    (SHAPE_GATE, some 54), (SHAPE_SUSTAIN, some 55), (SHAPE_RELEASE, some 56),
    (SHAPE_PUNCH, some 57), (PRESET, some 58), (HARD_GATE, some 59),
    (FILTER_TO_COMPRESSORS, some 61), (HIGH_SHAPE, some 65), (EQ, some 80),
    (HIGH_GAIN, some 82), (HIGH_FREQ, some 83), (HIGH_MID_GAIN, some 85),
    (HIGH_MID_FREQ, some 86), (HIGH_MID_SHAPE, some 87), (LOW_MID_GAIN, some 88),
    (LOW_MID_FREQ, some 89), (LOW_MID_SHAPE, some 90), (LOW_GAIN, some 91),
    (LOW_FREQ, some 92), (LOW_SHAPE, some 93), (PAGE_UP, some 96), (PAGE_DOWN, some 97),
    (DISPLAY_ON, some 102), (LOW_CUT, some 103), (MODE, some 104), (HIGH_CUT, some 105),
    (GAIN, some 107), (PHASE_INV, some 108), (INPUT_METER_L, some 110),
    (INPUT_METER_R, some 111), (OUTPUT_METER_L, some 112), (OUTPUT_METER_R, some 113),
    (SHAPE_METER, some 114), (COMP_METER, some 115), (TRACK_COPY, some 120),
    (TRACK_GROUP, some 123) ]

/-- The C++ numbering rule for an unscoped enumeration: an enumerator with an
initialiser takes that value, one without takes the value of its predecessor
plus one (`next` is that value; it is 0 for the first enumerator). -/
def enumValues {α : Type} : Nat → List (α × Option Nat) → List (α × Nat)
  | _, [] => []
  | _, (c, some v) :: rest => (c, v) :: enumValues (v + 1) rest
  | next, (c, none) :: rest => (c, next) :: enumValues (next + 1) rest

/-- Every enumerator of `ControllerID` with the value the compiler gives it. -/
def ControllerID.values : List (ControllerID × Nat) :=
  enumValues 0 ControllerID.declaration

/-- The integer value of an enumerator (the implicit conversion of the enum to
an integer). Every enumerator occurs in `values`, see `mem_values`. -/
def ControllerID.toNat (c : ControllerID) : Nat :=
  (ControllerID.values.lookup c).getD 0

/-- The cast `ControllerID (n)` restricted to the declared enumerators: the
enumerator whose value is `n`, if there is one. -/
def ControllerID.ofNat? (n : Nat) : Option ControllerID :=
  (ControllerID.values.find? (fun p => p.2 == n)).map Prod.fst

/-- The enumerators `FOCUS1` .. `FOCUS20`, in declaration order. -/
def focusIds : List ControllerID :=
  [FOCUS1, FOCUS2, FOCUS3, FOCUS4, FOCUS5, FOCUS6, FOCUS7, FOCUS8, FOCUS9, FOCUS10,
   FOCUS11, FOCUS12, FOCUS13, FOCUS14, FOCUS15, FOCUS16, FOCUS17, FOCUS18, FOCUS19, FOCUS20]

/-! ## Configuration -/

/-- The member `const uint32_t bank_size = 20`. -/
def bank_size : Nat := 20

/-! ## `send_controllers` and the band helpers -/

/-- The type `std::map<uint32_t, ControllerID>`, as the list of its entries. -/
abbrev SendControllerMap := List (Nat × ControllerID)

/-- The initialiser of the member `send_controllers`, entry by entry. -/
def send_controllers : SendControllerMap :=
  [ (0, LOW_FREQ), (1, LOW_MID_FREQ), (2, HIGH_MID_FREQ),
    (3, HIGH_FREQ), (4, LOW_GAIN), (5, LOW_MID_GAIN),
    (6, HIGH_MID_GAIN), (7, HIGH_GAIN), (8, LOW_MID_SHAPE),
    (9, HIGH_MID_SHAPE), (10, LOW_MID_SHAPE), (11, HIGH_MID_SHAPE) ]

/-- The inline member `eq_freq_controller_for_band`. The local `eq_freq_id` is
declared without an initialiser: `none` stands for "never assigned". The
`switch` assigns it in the cases 0 .. 3 and has no `default`. -/
def eq_freq_controller_for_band (band : Nat) : Option ControllerID :=
  let eq_freq_id : Option ControllerID := none
  match band with
  | 0 => some LOW_FREQ
  | 1 => some LOW_MID_FREQ
  | 2 => some HIGH_MID_FREQ
  | 3 => some HIGH_FREQ
  | _ => eq_freq_id

/-- The inline member `eq_gain_controller_for_band`, modelled as
`eq_freq_controller_for_band` is. -/
def eq_gain_controller_for_band (band : Nat) : Option ControllerID :=
  let eq_gain_id : Option ControllerID := none
  match band with
  | 0 => some LOW_GAIN
  | 1 => some LOW_MID_GAIN
  | 2 => some HIGH_MID_GAIN
  | 3 => some HIGH_GAIN
  | _ => eq_gain_id

/-! ## Strip inventory and banking -/

/-- The type `order_t` (`ARDOUR::PresentationInfo::order_t`, an unsigned integer). -/
abbrev order_t := Nat

/-- The type `std::map<uint32_t, order_t>`, as the list of its entries. -/
abbrev StripInventoryMap := List (Nat × order_t)

/-- The condition a failed inventory search signals. -/
inductive InventoryError where
  | NotFound
  deriving DecidableEq, Repr

/-- Modelled from the spec: the body of `get_inventory_order_by_index` is not
part of the header. Section 4.3 gives `orderAt(index) -> stableOrderKey`: the
order key stored under `index`; no result when `index` is not a key. -/
def get_inventory_order_by_index (strip_inventory : StripInventoryMap) (index : Nat) :
    Option order_t :=
  strip_inventory.lookup index

/-- Modelled from the spec: the body of `get_index_by_inventory_order` is not
part of the header. Section 4.3 gives `indexOf(stableOrderKey) -> index`, the
inverse of `orderAt`, which fails with NotFound if the key is absent. -/
def get_index_by_inventory_order (strip_inventory : StripInventoryMap) (order : order_t) :
    Except InventoryError Nat :=
  match strip_inventory.find? (fun e => e.2 == order) with
  | some e => Except.ok e.1
  | none => Except.error InventoryError.NotFound

/-- The members of `Console1` that banking reads and writes. -/
structure BankState where
  current_bank : Nat
  strip_inventory : StripInventoryMap
  deriving DecidableEq, Repr

/-- The function `clamp(v, lo, hi)` of the spec's formula, as `std::clamp` computes it. -/
def clamp (v lo hi : Int) : Int :=
  if v < lo then lo else if hi < v then hi else v

/-- The number `ceil(channelCount / bankSize)` of the spec's formula, on naturals. -/
def bankCount (channelCount : Nat) : Nat :=
  (channelCount + (bank_size - 1)) / bank_size

/-- Modelled from the spec: the body of `bank` (c1_operations.cc) is not part of
the header. Section 4.4 gives
`currentBank = clamp(currentBank + delta, 0, ceil(channelCount / bankSize) - 1)`,
with `channelCount` the size of the strip inventory. -/
def bankChange (s : BankState) (delta : Int) : Int :=
  clamp ((s.current_bank : Int) + delta) 0 ((bankCount s.strip_inventory.length : Int) - 1)

/-- Modelled from the spec: `bank (up)` is `bankChange (+1)` for `up = true` and
`bankChange (-1)` for `up = false`; the result is stored in the `uint32_t`
member `current_bank`. -/
def bank (s : BankState) (up : Bool) : BankState :=
  { s with current_bank := (bankChange s (if up then 1 else -1) % 2 ^ 32).toNat }

/-! ## Control registry -/

/-- The class `ControlNotFoundException`: it carries no data. -/
inductive ControlNotFoundException where
  | mk
  deriving DecidableEq, Repr

/-- The four controller maps of `Console1` (`ButtonMap`, `MultiStateButtonMap`,
`MeterMap`, `EncoderMap`), each a `std::map` keyed by `ControllerID`, as the list
of its entries. The primitive classes are only forward-declared in the header,
so they are parameters. -/
structure Registry (B M T E : Type) where
  buttons : List (ControllerID × B)
  multi_buttons : List (ControllerID × M)
  meters : List (ControllerID × T)
  encoders : List (ControllerID × E)

/-- The keys of a controller map. -/
def keys {V : Type} (m : List (ControllerID × V)) : List ControllerID :=
  m.map Prod.fst

/-- Modelled from the spec: the bodies of the `get_*` members are not part of the
header. Section 4.2 gives `lookup(id) -> primitive or NotFound`, and a lookup of
an unknown id signals the `ControlNotFound` condition. -/
def lookupControl {V : Type} (m : List (ControllerID × V)) (id : ControllerID) :
    Except ControlNotFoundException V :=
  match m.lookup id with
  | some v => Except.ok v
  | none => Except.error ControlNotFoundException.mk

/-- Modelled from the spec: `get_button`, the lookup on `buttons`. The member is
declared `const`; the registry after the call is returned next to the result. -/
def get_button {B M T E : Type} (r : Registry B M T E) (id : ControllerID) :
    Except ControlNotFoundException B × Registry B M T E :=
  (lookupControl r.buttons id, r)

/-- Modelled from the spec: `get_mbutton`, the lookup on `multi_buttons`. -/
def get_mbutton {B M T E : Type} (r : Registry B M T E) (id : ControllerID) :
    Except ControlNotFoundException M × Registry B M T E :=
  (lookupControl r.multi_buttons id, r)

/-- Modelled from the spec: `get_meter`, the lookup on `meters`. -/
def get_meter {B M T E : Type} (r : Registry B M T E) (id : ControllerID) :
    Except ControlNotFoundException T × Registry B M T E :=
  (lookupControl r.meters id, r)

/-- Modelled from the spec: `get_encoder`, the lookup on `encoders`. -/
def get_encoder {B M T E : Type} (r : Registry B M T E) (id : ControllerID) :
    Except ControlNotFoundException E × Registry B M T E :=
  (lookupControl r.encoders id, r)

/-- The invariant of the four `std::map`s: each key occurs once. -/
def Registry.UniqueKeys {B M T E : Type} (r : Registry B M T E) : Prop :=
  (keys r.buttons).Nodup ∧ (keys r.multi_buttons).Nodup ∧
    (keys r.meters).Nodup ∧ (keys r.encoders).Nodup

instance {B M T E : Type} (r : Registry B M T E) : Decidable r.UniqueKeys := by
  unfold Registry.UniqueKeys
  infer_instance

/-- What a lookup of `id` in the controller map `m` has to yield: the primitive
stored under `id` when `id` is a key, and the exception exactly when it is not. -/
def LookupOutcome {V : Type} (m : List (ControllerID × V)) (id : ControllerID)
    (res : Except ControlNotFoundException V) : Prop :=
  (∀ v, (id, v) ∈ m → res = Except.ok v) ∧
  (id ∈ keys m → ∃ v, (id, v) ∈ m ∧ res = Except.ok v) ∧
  (res = Except.error ControlNotFoundException.mk ↔ id ∉ keys m)

/-- A registry with two buttons, one multi-state button, one meter and two
encoders; the primitives are stood for by their names. -/
def sampleRegistry : Registry String String String String where
  buttons := [(MUTE, "mute"), (SOLO, "solo")]
  multi_buttons := [(MODE, "mode")]
  meters := [(COMP_METER, "comp meter")]
  encoders := [(VOLUME, "volume"), (PAN, "pan")]

/-- A strip inventory of 21 strips, display index i with order key i + 100. -/
def sampleInventory : StripInventoryMap :=
  (List.range 21).map (fun i => (i, i + 100))

/-! ## Blink list -/

/-- The type `std::list<ControllerID>`. -/
abbrev Blinkers := List ControllerID

/-- Modelled from the spec: the body of `start_blinking` is not part of the
header. Section 3 makes the Blink Set a set whose insertion is idempotent:
adding an already-blinking id is a no-op, a new id is appended to the list. -/
def start_blinking (blinkers : Blinkers) (id : ControllerID) : Blinkers :=
  if id ∈ blinkers then blinkers else blinkers ++ [id]

/-! ## Shared lemmas on the enumeration -/

set_option maxRecDepth 100000 in
/-- Every enumerator is numbered by the declaration. -/
theorem ControllerID.mem_values (c : ControllerID) :
    (ControllerID.values.lookup c).isSome = true := by
  cases c <;> rfl

set_option maxRecDepth 100000 in
/-- Casting the value of an enumerator back yields the enumerator. -/
theorem ControllerID.ofNat?_toNat (c : ControllerID) :
    ControllerID.ofNat? c.toNat = some c := by
  cases c <;> rfl

/-! ## Shared lemmas on maps and on banking -/

theorem bankCount_eq_ceil (n : Nat) :
    (bankCount n : Int) = ⌈(n : ℚ) / (bank_size : ℚ)⌉ := by
  symm
  rw [Int.ceil_eq_iff]
  have h1 := Nat.div_add_mod (n + 19) 20
  have h2 : (n + 19) % 20 ≤ 19 := by omega
  have hq : ((bankCount n : Int) : ℚ) = (((n + 19) / 20 : Nat) : ℚ) := by
    rw [Int.cast_natCast]; rfl
  rw [hq]
  have h3 : (n : ℚ) + 19 = 20 * (((n + 19) / 20 : Nat) : ℚ) + (((n + 19) % 20 : Nat) : ℚ) := by
    exact_mod_cast h1.symm
  have h4 : (((n + 19) % 20 : Nat) : ℚ) ≤ 19 := by exact_mod_cast h2
  have h5 : (0 : ℚ) ≤ (((n + 19) % 20 : Nat) : ℚ) := Nat.cast_nonneg _
  have hb : (bank_size : ℚ) = 20 := by simp [bank_size]
  rw [hb]
  constructor
  · rw [lt_div_iff₀ (by norm_num)]; linarith
  · rw [div_le_iff₀ (by norm_num)]; linarith

theorem uint32_store (x : Int) (h0 : 0 ≤ x) (h1 : x < 2 ^ 32) :
    (((x % 2 ^ 32).toNat : Nat) : Int) = x := by
  rw [Int.emod_eq_of_lt h0 h1, Int.toNat_of_nonneg h0]

theorem lookup_mem {α β : Type} [DecidableEq α] (m : List (α × β)) (k : α) (v : β)
    (h : m.lookup k = some v) : (k, v) ∈ m := by
  induction m with
  | nil => simp at h
  | cons e rest ih =>
    obtain ⟨a, b⟩ := e
    rw [List.lookup_cons] at h
    by_cases hk : k = a
    · subst hk
      simp at h
      simp [h]
    · have : (k == a) = false := by simpa using hk
      rw [this] at h
      exact List.mem_cons_of_mem _ (ih h)

theorem lookup_isSome_of_mem_keys {α β : Type} [DecidableEq α] (m : List (α × β)) (k : α)
    (h : k ∈ m.map Prod.fst) : ∃ v, m.lookup k = some v := by
  induction m with
  | nil => simp at h
  | cons e rest ih =>
    obtain ⟨a, b⟩ := e
    rw [List.lookup_cons]
    by_cases hk : k = a
    · subst hk
      exact ⟨b, by simp⟩
    · have hka : (k == a) = false := by simpa using hk
      rw [hka]
      simp only [List.map_cons, List.mem_cons] at h
      rcases h with h | h
      · exact absurd h hk
      · exact ih h

theorem find_order_of_mem (inv : StripInventoryMap) (h : (inv.map Prod.snd).Nodup)
    (i : Nat) (o : order_t) (hm : (i, o) ∈ inv) :
    inv.find? (fun e => e.2 == o) = some (i, o) := by
  induction inv with
  | nil => simp at hm
  | cons e rest ih =>
    obtain ⟨a, b⟩ := e
    simp only [List.map_cons, List.nodup_cons] at h
    by_cases hb : b = o
    · subst hb
      rcases List.mem_cons.mp hm with heq | hin
      · simp [heq]
      · exact absurd (List.mem_map_of_mem Prod.snd hin) h.1
    · rcases List.mem_cons.mp hm with heq | hin
      · exact absurd (Prod.mk.inj heq).2.symm hb
      · rw [List.find?_cons_of_neg _ (by simpa using hb)]
        exact ih h.2 hin

theorem lookup_of_mem_nodup {α β : Type} [DecidableEq α] (m : List (α × β))
    (h : (m.map Prod.fst).Nodup) (k : α) (v : β) (hm : (k, v) ∈ m) :
    m.lookup k = some v := by
  induction m with
  | nil => simp at hm
  | cons e rest ih =>
    obtain ⟨a, b⟩ := e
    simp only [List.map_cons, List.nodup_cons] at h
    rw [List.lookup_cons]
    rcases List.mem_cons.mp hm with heq | hin
    · obtain ⟨h1, h2⟩ := Prod.mk.inj heq
      subst h1 h2
      simp
    · have hk : k ≠ a := by
        intro hka
        subst hka
        exact h.1 (List.mem_map_of_mem Prod.fst hin)
      have hka : (k == a) = false := by simpa using hk
      rw [hka]
      exact ih h.2 hin

theorem lookup_eq_none_of_not_mem_keys {α β : Type} [DecidableEq α] (m : List (α × β))
    (k : α) (h : k ∉ m.map Prod.fst) : m.lookup k = none := by
  cases hl : m.lookup k with
  | none => rfl
  | some v => exact absurd (List.mem_map_of_mem Prod.fst (lookup_mem m k v hl)) h

theorem lookupControl_outcome {V : Type} (m : List (ControllerID × V))
    (h : (keys m).Nodup) (id : ControllerID) :
    LookupOutcome m id (lookupControl m id) := by
  refine ⟨?_, ?_, ?_⟩
  · intro v hv
    unfold lookupControl
    rw [lookup_of_mem_nodup m h id v hv]
  · intro hk
    obtain ⟨v, hv⟩ := lookup_isSome_of_mem_keys m id hk
    refine ⟨v, lookup_mem m id v hv, ?_⟩
    unfold lookupControl
    rw [hv]
  · constructor
    · intro he hk
      obtain ⟨v, hv⟩ := lookup_isSome_of_mem_keys m id hk
      unfold lookupControl at he
      rw [hv] at he
      cases he
    · intro hk
      unfold lookupControl
      rw [lookup_eq_none_of_not_mem_keys m id hk]

/-! ## Theorems -/

set_option maxRecDepth 100000 in
/-- C1: the enumerator-to-integer map of `ControllerID` is injective: two
enumerators with the same numeric value are the same enumerator, so no two
controls share one hardware identifier. The declaration numbers each of its 72
enumerators once, the implicitly numbered `FOCUS2` .. `FOCUS19` included, and
no value occurs twice among them. -/
theorem controllerID_toNat_injective :
    Function.Injective ControllerID.toNat ∧
    (∀ c : ControllerID, (c, c.toNat) ∈ ControllerID.values) ∧
    ControllerID.values.length = 72 ∧
    (ControllerID.values.map Prod.fst).Nodup ∧
    (ControllerID.values.map Prod.snd).Nodup := by
  refine ⟨?_, ?_, rfl, by decide, by decide⟩
  · intro a b hab
    have ha := ControllerID.ofNat?_toNat a
    have hb := ControllerID.ofNat?_toNat b
    rw [hab, hb] at ha
    exact (Option.some.inj ha).symm
  · intro c
    cases c <;> decide

/-- C3: bank boundaries. With N strips in the inventory and `current_bank`
within 0 .. ceil (N / bank_size) - 1, `bank (true)` sets `current_bank` to
min (current_bank + 1, ceil (N / bank_size) - 1) and `bank (false)` sets it to
max (current_bank - 1, 0); bank up at the last bank and bank down at bank 0
leave `current_bank` unchanged, and `current_bank` stays within range. The
number of banks `bankCount N` is ceil (N / bank_size). -/
theorem bank_boundaries (s : BankState)
    (hsize : s.strip_inventory.length ≤ 2 ^ 32)
    (hrange : (s.current_bank : Int) ≤ (bankCount s.strip_inventory.length : Int) - 1) :
    ((bank s true).current_bank : Int) =
      min ((s.current_bank : Int) + 1) ((bankCount s.strip_inventory.length : Int) - 1) ∧
    ((bank s false).current_bank : Int) = max ((s.current_bank : Int) - 1) 0 ∧
    ((s.current_bank : Int) = (bankCount s.strip_inventory.length : Int) - 1 →
      (bank s true).current_bank = s.current_bank) ∧
    (s.current_bank = 0 → (bank s false).current_bank = s.current_bank) ∧
    ((bank s true).current_bank : Int) ≤ (bankCount s.strip_inventory.length : Int) - 1 ∧
    ((bank s false).current_bank : Int) ≤ (bankCount s.strip_inventory.length : Int) - 1 ∧
    (bankCount s.strip_inventory.length : Int) =
      ⌈(s.strip_inventory.length : ℚ) / (bank_size : ℚ)⌉ := by
  have hc : bankCount s.strip_inventory.length ≤ 2 ^ 32 := by
    unfold bankCount bank_size
    omega
  have hcb : (s.current_bank : Int) < 2 ^ 32 := by omega
  have eup : bankChange s 1 =
      min ((s.current_bank : Int) + 1) ((bankCount s.strip_inventory.length : Int) - 1) := by
    simp only [bankChange, clamp]
    split_ifs <;> omega
  have edown : bankChange s (-1) = max ((s.current_bank : Int) - 1) 0 := by
    simp only [bankChange, clamp]
    split_ifs <;> omega
  have hup : ((bank s true).current_bank : Int) =
      min ((s.current_bank : Int) + 1) ((bankCount s.strip_inventory.length : Int) - 1) := by
    show (((bankChange s 1 % 2 ^ 32).toNat : Nat) : Int) = _
    rw [uint32_store _ (by omega) (by omega), eup]
  have hdown : ((bank s false).current_bank : Int) = max ((s.current_bank : Int) - 1) 0 := by
    show (((bankChange s (-1) % 2 ^ 32).toNat : Nat) : Int) = _
    rw [uint32_store _ (by omega) (by omega), edown]
  refine ⟨hup, hdown, ?_, ?_, ?_, ?_, bankCount_eq_ceil _⟩
  · intro h; omega
  · intro h; omega
  · omega
  · omega

/-- Witness of C3: 21 strips make two banks; at the last bank, bank 1, bank up
stays at 1 and bank down goes to 0. -/
theorem bank_boundaries_witness :
    sampleInventory.length ≤ 2 ^ 32 ∧
    ((1 : Nat) : Int) ≤ (bankCount sampleInventory.length : Int) - 1 ∧
    (bank ⟨1, sampleInventory⟩ true).current_bank = 1 ∧
    ((bank ⟨1, sampleInventory⟩ false).current_bank : Int) = max (((1 : Nat) : Int) - 1) 0 :=
  ⟨by decide, by decide,
    (bank_boundaries ⟨1, sampleInventory⟩ (by decide) (by decide)).2.2.1 (by decide),
    (bank_boundaries ⟨1, sampleInventory⟩ (by decide) (by decide)).2.1⟩

/-- C4: registry lookup fails exactly on unregistered ids. In a registry whose
maps hold each key once, `get_button`, `get_mbutton`, `get_meter` and
`get_encoder` return the primitive stored under `id` when `id` is a key of
their map, signal `ControlNotFoundException` if and only if it is not, and
leave the registry unchanged. -/
theorem registry_lookup_outcome {B M T E : Type} (r : Registry B M T E)
    (id : ControllerID) (h : r.UniqueKeys) :
    LookupOutcome r.buttons id (get_button r id).1 ∧ (get_button r id).2 = r ∧
    LookupOutcome r.multi_buttons id (get_mbutton r id).1 ∧ (get_mbutton r id).2 = r ∧
    LookupOutcome r.meters id (get_meter r id).1 ∧ (get_meter r id).2 = r ∧
    LookupOutcome r.encoders id (get_encoder r id).1 ∧ (get_encoder r id).2 = r :=
  ⟨lookupControl_outcome r.buttons h.1 id, rfl,
    lookupControl_outcome r.multi_buttons h.2.1 id, rfl,
    lookupControl_outcome r.meters h.2.2.1 id, rfl,
    lookupControl_outcome r.encoders h.2.2.2 id, rfl⟩

/-- Witness of C4: in the sample registry `MUTE` is a button and is neither a
meter nor an encoder. -/
theorem registry_lookup_outcome_witness :
    sampleRegistry.UniqueKeys ∧
    (get_button sampleRegistry MUTE).1 = Except.ok "mute" ∧
    (get_meter sampleRegistry MUTE).1 = Except.error ControlNotFoundException.mk ∧
    (get_encoder sampleRegistry MUTE).2 = sampleRegistry :=
  ⟨by decide,
    (registry_lookup_outcome sampleRegistry MUTE (by decide)).1.1 "mute" (by decide),
    (registry_lookup_outcome sampleRegistry MUTE (by decide)).2.2.2.2.1.2.2.mpr (by decide),
    (registry_lookup_outcome sampleRegistry MUTE (by decide)).2.2.2.2.2.2.2⟩

/-- C5: Blink Set idempotence. For every blink list, duplicates included, and
every id, `start_blinking (id)` twice leaves the list that a single
`start_blinking (id)` leaves: the same size and the same members; the id is
blinking afterwards, and adding an already-blinking id changes nothing. -/
theorem start_blinking_idempotent (blinkers : Blinkers) (id : ControllerID) :
    start_blinking (start_blinking blinkers id) id = start_blinking blinkers id ∧
    (start_blinking (start_blinking blinkers id) id).length =
      (start_blinking blinkers id).length ∧
    (∀ c, c ∈ start_blinking (start_blinking blinkers id) id ↔
      c ∈ start_blinking blinkers id) ∧
    id ∈ start_blinking blinkers id ∧
    (id ∈ blinkers → start_blinking blinkers id = blinkers) := by
  have hmem : id ∈ start_blinking blinkers id := by
    unfold start_blinking
    split_ifs with h
    · exact h
    · simp
  have hnoop : ∀ bl : Blinkers, id ∈ bl → start_blinking bl id = bl := by
    intro bl h
    unfold start_blinking
    rw [if_pos h]
  have h2 := hnoop _ hmem
  exact ⟨h2, by rw [h2], fun c => by rw [h2], hmem, hnoop blinkers⟩

/-- C6: Strip Inventory inverse. In an inventory with pairwise distinct order
keys, for every index i that is a key the order key stored under i is found
back at i: `get_index_by_inventory_order (get_inventory_order_by_index (i))` is
i; for an order key absent from the inventory `get_index_by_inventory_order`
fails with NotFound. -/
theorem strip_inventory_inverse (strip_inventory : StripInventoryMap)
    (h : (strip_inventory.map Prod.snd).Nodup) :
    (∀ i, i ∈ strip_inventory.map Prod.fst →
      ∃ o, get_inventory_order_by_index strip_inventory i = some o ∧
        get_index_by_inventory_order strip_inventory o = Except.ok i) ∧
    (∀ o, o ∉ strip_inventory.map Prod.snd →
      get_index_by_inventory_order strip_inventory o =
        Except.error InventoryError.NotFound) := by
  constructor
  · intro i hi
    obtain ⟨o, ho⟩ := lookup_isSome_of_mem_keys strip_inventory i hi
    refine ⟨o, ho, ?_⟩
    unfold get_index_by_inventory_order
    rw [find_order_of_mem strip_inventory h i o (lookup_mem _ _ _ ho)]
  · intro o ho
    unfold get_index_by_inventory_order
    have : strip_inventory.find? (fun e => e.2 == o) = none := by
      rw [List.find?_eq_none]
      intro e he hc
      exact ho (List.mem_map.mpr ⟨e, he, by simpa using hc⟩)
    rw [this]

/-- Witness of C6: in the sample inventory index 7 has order key 107, which is
found back at 7; order key 5 is absent. -/
theorem strip_inventory_inverse_witness :
    (sampleInventory.map Prod.snd).Nodup ∧
    (∃ o, get_inventory_order_by_index sampleInventory 7 = some o ∧
      get_index_by_inventory_order sampleInventory o = Except.ok 7) ∧
    get_index_by_inventory_order sampleInventory 5 =
      Except.error InventoryError.NotFound :=
  ⟨by decide,
    (strip_inventory_inverse sampleInventory (by decide)).1 7 (by decide),
    (strip_inventory_inverse sampleInventory (by decide)).2 5 (by decide)⟩

/-- C7: the send-index table has duplicate targets. Indices 8 and 10 both map to
`LOW_MID_SHAPE`, indices 9 and 11 both map to `HIGH_MID_SHAPE`; the key set is
0 .. 11; two distinct keys share a target, so the table is not injective on its
keys, while its restriction to the indices 0 .. 7 is injective. -/
theorem send_controllers_duplicate_targets :
    send_controllers.lookup 8 = some LOW_MID_SHAPE ∧
    send_controllers.lookup 10 = some LOW_MID_SHAPE ∧
    send_controllers.lookup 9 = some HIGH_MID_SHAPE ∧
    send_controllers.lookup 11 = some HIGH_MID_SHAPE ∧
    send_controllers.map Prod.fst = List.range 12 ∧
    (∃ i j, i ∈ send_controllers.map Prod.fst ∧ j ∈ send_controllers.map Prod.fst ∧
      i ≠ j ∧ send_controllers.lookup i = send_controllers.lookup j) ∧
    ¬ (∀ i, i < 12 → ∀ j, j < 12 →
      send_controllers.lookup i = send_controllers.lookup j → i = j) ∧
    (∀ i, i < 8 → ∀ j, j < 8 →
      send_controllers.lookup i = send_controllers.lookup j → i = j) := by
  refine ⟨rfl, rfl, rfl, rfl, rfl, ⟨8, 10, by decide, by decide, by decide, rfl⟩, ?_, ?_⟩
  · intro h
    exact absurd (h 8 (by decide) 10 (by decide) rfl) (by decide)
  · decide

/-- C8: definedness of the band helpers. For every band, each helper returns an
assigned `ControllerID` exactly when `band <= 3`; on 0, 1, 2, 3 the results are
`LOW_FREQ`, `LOW_MID_FREQ`, `HIGH_MID_FREQ`, `HIGH_FREQ` and `LOW_GAIN`,
`LOW_MID_GAIN`, `HIGH_MID_GAIN`, `HIGH_GAIN`, never `CONTROLLER_NONE`; for
every band from 4 on the local is returned without having been assigned. -/
theorem eq_controller_for_band_defined (band : Nat) :
    ((eq_freq_controller_for_band band).isSome = true ↔ band ≤ 3) ∧
    ((eq_gain_controller_for_band band).isSome = true ↔ band ≤ 3) ∧
    (List.range 4).map eq_freq_controller_for_band =
      [some LOW_FREQ, some LOW_MID_FREQ, some HIGH_MID_FREQ, some HIGH_FREQ] ∧
    (List.range 4).map eq_gain_controller_for_band =
      [some LOW_GAIN, some LOW_MID_GAIN, some HIGH_MID_GAIN, some HIGH_GAIN] ∧
    eq_freq_controller_for_band band ≠ some CONTROLLER_NONE ∧
    eq_gain_controller_for_band band ≠ some CONTROLLER_NONE ∧
    (4 ≤ band → eq_freq_controller_for_band band = none ∧
      eq_gain_controller_for_band band = none) := by
  match band with
  | 0 => decide
  | 1 => decide
  | 2 => decide
  | 3 => decide
  | n + 4 =>
    refine ⟨?_, ?_, rfl, rfl, ?_, ?_, ?_⟩ <;>
      simp [eq_freq_controller_for_band, eq_gain_controller_for_band]

/-- C9: the send table and the band helpers agree. For every band n in 0 .. 3,
`send_controllers[n]` is `eq_freq_controller_for_band (n)` and
`send_controllers[n + 4]` is `eq_gain_controller_for_band (n)`; the two helpers
are injective on 0 .. 3 and no frequency id is a gain id. -/
theorem send_controllers_agree_with_band_helpers :
    (∀ n, n ≤ 3 → send_controllers.lookup n = eq_freq_controller_for_band n ∧
      send_controllers.lookup (n + 4) = eq_gain_controller_for_band n) ∧
    (∀ m, m ≤ 3 → ∀ n, n ≤ 3 →
      eq_freq_controller_for_band m = eq_freq_controller_for_band n → m = n) ∧
    (∀ m, m ≤ 3 → ∀ n, n ≤ 3 →
      eq_gain_controller_for_band m = eq_gain_controller_for_band n → m = n) ∧
    (∀ m, m ≤ 3 → ∀ n, n ≤ 3 →
      eq_freq_controller_for_band m ≠ eq_gain_controller_for_band n) := by
  refine ⟨?_, ?_, ?_, ?_⟩ <;> decide

set_option maxRecDepth 100000 in
/-- C10: the per-bank select buttons match the bank size. For every k in 1 .. 20
the enumerator FOCUSk has value 20 + k; `FOCUS1` is 21, `FOCUS2` .. `FOCUS19`
have no initialiser and each is its predecessor plus one, and the explicit
`FOCUS20 = 40` is what the implicit numbering gives after `FOCUS19`; the map
from an in-bank index i below `bank_size` to the id of value `FOCUS1 + i` hits
each FOCUS id once; no other enumerator has a value in 21 .. 40. -/
theorem focus_ids_match_bank_size :
    (∀ k, 1 ≤ k → k ≤ 20 →
      (focusIds[k - 1]?).map ControllerID.toNat = some (20 + k)) ∧
    FOCUS1.toNat = 21 ∧
    (∀ k, 1 ≤ k → k < 19 →
      (focusIds[k]?).bind ControllerID.declaration.lookup = some none) ∧
    (∀ k, k < 19 → (focusIds[k + 1]?).map ControllerID.toNat =
      (focusIds[k]?).map (fun c => c.toNat + 1)) ∧
    ControllerID.declaration.lookup FOCUS20 = some (some 40) ∧
    FOCUS19.toNat + 1 = FOCUS20.toNat ∧
    bank_size = 20 ∧
    focusIds.length = bank_size ∧
    focusIds.Nodup ∧
    (∀ i, i < bank_size → ControllerID.ofNat? (FOCUS1.toNat + i) = focusIds[i]?) ∧
    (∀ c, c ∈ focusIds → ∃ i, i < bank_size ∧ c.toNat = FOCUS1.toNat + i) ∧
    (∀ c : ControllerID, 21 ≤ c.toNat → c.toNat ≤ 40 → c ∈ focusIds) := by
  refine ⟨by decide, rfl, by decide, by decide, rfl, rfl, rfl, rfl, by decide,
    by decide, ?_, ?_⟩
  · intro c hc
    refine ⟨c.toNat - FOCUS1.toNat, ?_, ?_⟩ <;> revert hc <;> cases c <;> decide
  · intro c
    cases c <;> decide

end Console1
